import Mathlib

/-!
Shallow embedding of the combobox widget of this repository.

Two implementation variants exist in the sources:

* `src/unnamed/part_000` — the registry-map variant: the `Combobox`
  component keeps `itemsMap : Map<string, ref>` plus React state
  `value`, `search`, `open`, `activeItem`.  `CState` below embeds that
  state.  The DOM refs stored as map values are dropped: they are used
  only for `scrollIntoView`, a pure DOM side effect, so the registry is
  embedded as its insertion-ordered key list.
* `src/src/components/combobox/Combobox.tsx` — the index-based variant
  (`searchValue`, `open`, `activeIndex`, shared ref array), embedded as
  `TState` together with the operations cited from it.

Calls to the external collaborator callbacks (`onChange`,
`onSearchChange`, `onOpenChange`, the per-item `onSelect`) are embedded
as an `Event` trace returned next to the updated state.
-/

namespace Combobox

/-- Calls made to the external collaborator callbacks. -/
inductive Event where
  | onChange (v : String)
  | onSearchChange (s : String)
  | onOpenChange (b : Bool)
  | onSelect (v : String)
  deriving DecidableEq

/-- State of the part_000 `Combobox` component: `value`, `search`,
`open` (renamed `isOpen` because `open` is a Lean keyword),
`activeItem`, and the insertion-ordered key list of `itemsMap`. -/
structure CState where
  value : String
  search : String
  isOpen : Bool
  activeItem : Option String
  itemsMap : List String
  deriving DecidableEq

/-- The keys the part_000 `handleKeyDown` distinguishes; `other` stands
for every key that hits no `case`. -/
inductive Key where
  | arrowDown
  | arrowUp
  | enter
  | escape
  | other
  deriving DecidableEq

/-- JS `Array.prototype.indexOf`: index of the first occurrence, `-1`
when the element is absent. -/
def jsIndexOf (l : List String) (a : String) : Int :=
  if a ∈ l then (l.indexOf a : Int) else -1

/-- JS truthiness of `activeItem : string | null`: `null` and the empty
string are falsy, every other string is truthy. -/
def truthy : Option String → Bool
  | some a => a ≠ ""
  | none => false

/-- part_000 `setOpen`: sets the flag and fires `onOpenChange` with the
new value. -/
def setOpen (s : CState) (b : Bool) : CState × List Event :=
  ({ s with isOpen := b }, [Event.onOpenChange b])

/-- part_000 `setValue`: sets the value and fires `onChange`. -/
def setValue (s : CState) (v : String) : CState × List Event :=
  ({ s with value := v }, [Event.onChange v])

/-- part_000 `handleSearchChange` (exposed through context as
`setSearch`): sets the search text and fires `onSearchChange`.  It
touches neither `open` nor `activeItem`. -/
def handleSearchChange (s : CState) (t : String) : CState × List Event :=
  ({ s with search := t }, [Event.onSearchChange t])

/-- part_000 `registerItem`: `itemsMap.current.set(id, itemRef)`.  A JS
`Map.set` on an existing key keeps the key at its original position and
only replaces the stored value; with the refs dropped, re-registering
an existing id leaves the key list unchanged.  A new id is appended. -/
def registerItem (s : CState) (id : String) : CState :=
  { s with itemsMap := if id ∈ s.itemsMap then s.itemsMap else s.itemsMap ++ [id] }

/-- part_000 `unregisterItem`: `itemsMap.current.delete(id)`.  Only the
map is touched; in particular `activeItem` is left as it is. -/
def unregisterItem (s : CState) (id : String) : CState :=
  { s with itemsMap := s.itemsMap.erase id }

/-- part_000 `setActiveItem` (the raw state setter). -/
def setActiveItem (s : CState) (o : Option String) : CState :=
  { s with activeItem := o }

/-- part_000 `handleKeyDown`, `case 'ArrowDown'` body (reached only
while `open` with a nonempty registry):
`currentIndex = activeItem ? items.indexOf(activeItem) : -1;
nextIndex = (currentIndex + 1) % items.length;
setActiveItem(items[nextIndex])`.
The dividend `currentIndex + 1` is always `≥ 0`, where the JS remainder
and `Int.emod` agree. -/
def moveNext (s : CState) : CState × List Event :=
  let items := s.itemsMap
  let currentIndex : Int :=
    match s.activeItem with
    | some a => if a = "" then -1 else jsIndexOf items a
    | none => -1
  let nextIndex : Nat := ((currentIndex + 1) % (items.length : Int)).toNat
  ({ s with activeItem := items.get? nextIndex }, [])

/-- part_000 `handleKeyDown`, `case 'ArrowUp'` body (reached only while
`open` with a nonempty registry):
`currentIndex = activeItem ? items.indexOf(activeItem) : 0;
prevIndex = (currentIndex - 1 + items.length) % items.length;
setActiveItem(items[prevIndex])`.
The dividend is negative only for a dangling truthy active id in a
one-element registry, where JS yields `-0` and `Int.emod` yields `0`:
both select index `0`. -/
def movePrev (s : CState) : CState × List Event :=
  let items := s.itemsMap
  let currentIndex : Int :=
    match s.activeItem with
    | some a => if a = "" then 0 else jsIndexOf items a
    | none => 0
  let prevIndex : Nat := ((currentIndex - 1 + (items.length : Int)) % (items.length : Int)).toNat
  ({ s with activeItem := items.get? prevIndex }, [])

/-- part_000 `handleKeyDown`, `case 'Enter'` body (reached only while
`open` with a nonempty registry): `if (activeItem) { setValue(activeItem);
setOpen(false); setSearch(''); }`.  The final `setSearch` is the raw
state setter, not `handleSearchChange`, so no `onSearchChange` fires. -/
def commitActive (s : CState) : CState × List Event :=
  match s.activeItem with
  | some a =>
      if a = "" then (s, [])
      else
        let p1 := setValue s a
        let p2 := setOpen p1.1 false
        ({ p2.1 with search := "" }, p1.2 ++ p2.2)
  | none => (s, [])

/-- part_000 `handleKeyDown`, closed branch:
`if (e.key === 'ArrowDown' || e.key === 'Enter') setOpen(true); return;`. -/
def keyDownClosed (s : CState) (k : Key) : CState × List Event :=
  match k with
  | Key.arrowDown => setOpen s true
  | Key.enter => setOpen s true
  | _ => (s, [])

/-- part_000 `handleKeyDown`, the `switch (e.key)` reached while open
with a nonempty registry. -/
def keyDownSwitch (s : CState) (k : Key) : CState × List Event :=
  match k with
  | Key.arrowDown => moveNext s
  | Key.arrowUp => movePrev s
  | Key.enter => commitActive s
  | Key.escape => setOpen s false
  | Key.other => (s, [])

/-- part_000 `handleKeyDown`: while closed, `ArrowDown` and `Enter`
open and everything else returns untouched; while open, the early
`if (!items.length) return;` guards all four `switch` cases, including
`Enter` and `Escape`. -/
def handleKeyDown (s : CState) (k : Key) : CState × List Event :=
  if s.isOpen = false then
    keyDownClosed s k
  else if s.itemsMap.length = 0 then
    (s, [])
  else
    keyDownSwitch s k

/-- part_000 `ComboboxItem.handleSelect` (pointer click): no-op when
`disabled`, otherwise `setValue(value); onSelect?.(value);
setOpen(false); setSearch('')` — here `setSearch` is the context value,
i.e. `handleSearchChange`, so `onSearchChange("")` fires. -/
def handleSelect (s : CState) (v : String) (disabled hasOnSelect : Bool) :
    CState × List Event :=
  if disabled then (s, [])
  else
    let p1 := setValue s v
    let e2 : List Event := if hasOnSelect then [Event.onSelect v] else []
    let p3 := setOpen p1.1 false
    let p4 := handleSearchChange p3.1 ""
    (p4.1, p1.2 ++ e2 ++ p3.2 ++ p4.2)

/-- part_000 `ComboboxItem` `onMouseEnter`:
`!disabled && setActiveItem(value)`. -/
def handleMouseEnter (s : CState) (v : String) (disabled : Bool) : CState :=
  if disabled then s else { s with activeItem := some v }

/-- Externally triggerable operations of the part_000 widget. -/
inductive Op where
  | register (id : String)
  | unregister (id : String)
  | keydown (k : Key)
  | select (v : String) (disabled hasOnSelect : Bool)
  | hover (v : String) (disabled : Bool)
  | searchInput (t : String)
  | focusInput

/-- One externally triggered step of the part_000 widget.  `register` /
`unregister` are the mount/unmount effects of `ComboboxItem` (which run
regardless of the `disabled` prop), `searchInput` is the input's
`onChange` through the context `setSearch`, `focusInput` the input's
`onFocus`. -/
def step (s : CState) : Op → CState × List Event
  | Op.register id => (registerItem s id, [])
  | Op.unregister id => (unregisterItem s id, [])
  | Op.keydown k => handleKeyDown s k
  | Op.select v d h => handleSelect s v d h
  | Op.hover v d => (handleMouseEnter s v d, [])
  | Op.searchInput t => handleSearchChange s t
  | Op.focusInput => setOpen s true

/-- Run a sequence of operations, discarding the event traces. -/
def run (s : CState) (ops : List Op) : CState :=
  ops.foldl (fun s op => (step s op).1) s

/-- Initial part_000 state with the default props: `value ''`,
`search ''`, closed (`defaultOpen = false`), no active item, empty
registry. -/
def initState : CState :=
  { value := "", search := "", isOpen := false, activeItem := none, itemsMap := [] }

/-- State of the `Combobox.tsx` variant: `searchValue`, `open` (renamed
`openFlag` because `open` is a Lean keyword), `activeIndex`. -/
structure TState where
  searchValue : String
  openFlag : Bool
  activeIndex : Int
  deriving DecidableEq

/-- `Combobox.tsx` `ComboboxInput.handleChange`: `setSearchValue(value);
onSearchChange?.(value); setOpen(true); setActiveIndex(-1)`. -/
def tsxHandleChange (s : TState) (v : String) : TState × List Event :=
  ({ s with searchValue := v, openFlag := true, activeIndex := -1 },
   [Event.onSearchChange v])

/-- `Combobox.tsx` `ComboboxItem` mount effect: `findIndex` for the
element, push only when it returned `-1`.  DOM elements are embedded as
`Nat` identities. -/
def tsxRegisterItem (items : List Nat) (el : Nat) : List Nat :=
  if el ∈ items then items else items ++ [el]

/-- `Combobox.tsx` `ComboboxItem` unmount cleanup: `indexOf` then
`splice(index, 1)` when the index is not `-1`, i.e. erase the first
occurrence, no-op when absent. -/
def tsxUnregisterItem (items : List Nat) (el : Nat) : List Nat :=
  items.erase el

/-- Casting helper: the JS next-index computation on a current index
`≥ 0` agrees with `Nat` arithmetic. -/
theorem intAddOne_mod_toNat (i n : Nat) :
    (((i : Int) + 1) % (n : Int)).toNat = (i + 1) % n := by
  have h : ((i : Int) + 1) = ((i + 1 : Nat) : Int) := by push_cast; ring
  rw [h]
  rfl

/-- Casting helper: the JS previous-index computation on a current
index `≥ 0` agrees with `Nat` arithmetic once `n > 0`. -/
theorem intSub_mod_toNat (i n : Nat) (h : 0 < n) :
    (((i : Int) - 1 + (n : Int)) % (n : Int)).toNat = (i + n - 1) % n := by
  have h2 : ((i : Int) - 1 + (n : Int)) = ((i + n - 1 : Nat) : Int) := by omega
  rw [h2]
  rfl

/-- Wraparound arithmetic: stepping forward then backward returns to
the start. -/
theorem wrap_roundtrip (i n : Nat) (h : i < n) :
    ((i + 1) % n + n - 1) % n = i := by
  rcases Nat.lt_or_ge (i + 1) n with h1 | h1
  · rw [Nat.mod_eq_of_lt h1]
    have h2 : i + 1 + n - 1 = i + n := by omega
    rw [h2, Nat.add_mod_right, Nat.mod_eq_of_lt h]
  · have h2 : i + 1 = n := by omega
    rw [h2, Nat.mod_self]
    have h3 : 0 + n - 1 = n - 1 := by omega
    rw [h3, Nat.mod_eq_of_lt (by omega)]
    omega

/-- In a duplicate-free list the last element sits at index
`length - 1`. -/
theorem indexOf_of_getLast (l : List String) (a : String) (hnd : l.Nodup)
    (h : l.getLast? = some a) : l.indexOf a = l.length - 1 := by
  have hne : l ≠ [] := by
    intro e
    rw [e] at h
    simp at h
  have hlt : l.length - 1 < l.length := by
    have := List.length_pos.mpr hne
    omega
  have h2 : l[l.length - 1]? = some a := by
    rw [← List.getLast?_eq_getElem?]
    exact h
  have h3 : l[l.length - 1] = a := by
    have h4 := (List.getElem?_eq_some_getElem_iff l (l.length - 1) hlt).mpr trivial
    rw [h4] at h2
    exact Option.some.inj h2
  have h5 := List.indexOf_getElem hnd (l.length - 1) hlt
  rw [h3] at h5
  exact h5

/-- The head, when present, sits at index `0` of the first
occurrence. -/
theorem indexOf_of_head (l : List String) (a : String)
    (h : l.head? = some a) : l.indexOf a = 0 := by
  cases l with
  | nil => simp at h
  | cons x t =>
      have hx : x = a := by
        simpa using h
      subst hx
      simp

/-- `moveNext` on a falsy active item (`null` or `""`) selects the
first registered id. -/
theorem moveNext_not_truthy (s : CState) (h : truthy s.activeItem = false) :
    moveNext s = ({ s with activeItem := s.itemsMap.head? }, []) := by
  have hidx : (((-1 : Int) + 1) % (s.itemsMap.length : Int)).toNat = 0 := by
    norm_num
  cases ha : s.activeItem with
  | none =>
      simp only [moveNext, ha, hidx, List.get?_zero]
  | some a =>
      have ha2 : a = "" := by
        rw [ha] at h
        simpa [truthy] using h
      subst ha2
      simp only [moveNext, ha, if_true, hidx, List.get?_zero]

/-- `movePrev` on a falsy active item (`null` or `""`) in a nonempty
registry selects the last registered id. -/
theorem movePrev_not_truthy (s : CState) (h : truthy s.activeItem = false)
    (hne : s.itemsMap ≠ []) :
    movePrev s = ({ s with activeItem := s.itemsMap.getLast? }, []) := by
  have hpos : 0 < s.itemsMap.length := List.length_pos.mpr hne
  have hidx : (((0 : Int) - 1 + (s.itemsMap.length : Int)) % (s.itemsMap.length : Int)).toNat
      = s.itemsMap.length - 1 := by
    have h2 := intSub_mod_toNat 0 s.itemsMap.length hpos
    have h3 : (0 + s.itemsMap.length - 1) % s.itemsMap.length = s.itemsMap.length - 1 := by
      rw [Nat.zero_add, Nat.mod_eq_of_lt (by omega)]
    rw [h3] at h2
    simpa using h2
  have hget : s.itemsMap.get? (s.itemsMap.length - 1) = s.itemsMap.getLast? := by
    rw [List.get?_eq_getElem?, ← List.getLast?_eq_getElem?]
  cases ha : s.activeItem with
  | none =>
      simp only [movePrev, ha, hidx, hget]
  | some a =>
      have ha2 : a = "" := by
        rw [ha] at h
        simpa [truthy] using h
      subst ha2
      simp only [movePrev, ha, if_true, hidx, hget]

/-- `moveNext` on a truthy, registered active id advances to the
circular successor position. -/
theorem moveNext_of_mem (s : CState) (a : String) (ha : s.activeItem = some a)
    (h0 : a ≠ "") (hm : a ∈ s.itemsMap) :
    moveNext s
      = ({ s with activeItem :=
            s.itemsMap.get? ((s.itemsMap.indexOf a + 1) % s.itemsMap.length) }, []) := by
  simp only [moveNext, ha, if_neg h0, jsIndexOf, if_pos hm]
  rw [intAddOne_mod_toNat]

/-- `movePrev` on a truthy, registered active id moves to the circular
predecessor position. -/
theorem movePrev_of_mem (s : CState) (a : String) (ha : s.activeItem = some a)
    (h0 : a ≠ "") (hm : a ∈ s.itemsMap) :
    movePrev s
      = ({ s with activeItem :=
            s.itemsMap.get? ((s.itemsMap.indexOf a + s.itemsMap.length - 1)
              % s.itemsMap.length) }, []) := by
  have hpos : 0 < s.itemsMap.length := List.length_pos.mpr (List.ne_nil_of_mem hm)
  simp only [movePrev, ha, if_neg h0, jsIndexOf, if_pos hm]
  rw [intSub_mod_toNat _ _ hpos]

/-- While open with a nonempty registry, `ArrowDown` dispatches to the
`moveNext` case body. -/
theorem hkd_down (s : CState) (ho : s.isOpen = true) (hne : s.itemsMap ≠ []) :
    handleKeyDown s Key.arrowDown = moveNext s := by
  simp [handleKeyDown, keyDownSwitch, ho, hne]

/-- While open with a nonempty registry, `ArrowUp` dispatches to the
`movePrev` case body. -/
theorem hkd_up (s : CState) (ho : s.isOpen = true) (hne : s.itemsMap ≠ []) :
    handleKeyDown s Key.arrowUp = movePrev s := by
  simp [handleKeyDown, keyDownSwitch, ho, hne]

/-- While open with a nonempty registry, `Enter` dispatches to the
commit case body. -/
theorem hkd_enter (s : CState) (ho : s.isOpen = true) (hne : s.itemsMap ≠ []) :
    handleKeyDown s Key.enter = commitActive s := by
  simp [handleKeyDown, keyDownSwitch, ho, hne]

/-- Navigation and commit do not touch the registry, so the navigable
set is unchanged between consecutive key presses. -/
theorem moveNext_preserves_items (s : CState) :
    (moveNext s).1.itemsMap = s.itemsMap ∧ (moveNext s).1.isOpen = s.isOpen := by
  constructor <;> rfl

/-- Operation sequence driving the C1 counterexample: open the widget,
mount item `a`, highlight it with `ArrowDown`, then unmount it. -/
def c1ops : List Op :=
  [Op.keydown Key.arrowDown, Op.register "a", Op.keydown Key.arrowDown, Op.unregister "a"]

/-- C1 counterexample: after opening, registering `a`, navigating onto
it and unregistering it, `activeItemId` still holds `a` while the
registry is empty — the active id dangles instead of being cleared. -/
theorem C1_counterexample :
    (run initState c1ops).activeItem = some "a" ∧ (run initState c1ops).itemsMap = [] := by
  constructor <;> rfl

/-- C1 amended: registry mutation never touches `activeItem`:
`unregisterItem` only deletes from the key list, so the active id is
neither cleared nor advanced to a neighbor and may dangle;
`registerItem` likewise leaves it alone. -/
theorem C1_registry_keeps_active (s : CState) (id : String) :
    (unregisterItem s id).activeItem = s.activeItem ∧
    (unregisterItem s id).itemsMap = s.itemsMap.erase id ∧
    (registerItem s id).activeItem = s.activeItem :=
  ⟨rfl, rfl, rfl⟩

/-- Registry state after mounting items `A` (disabled), `B`, `C` while
open with no active item: part_000's `ComboboxItem` registers itself in
its mount effect regardless of the `disabled` prop, so `A` appears in
the key list like any other id and nothing records its disabledness. -/
def c2state : CState :=
  { value := "", search := "", isOpen := true, activeItem := none,
    itemsMap := ["A", "B", "C"] }

/-- C2 counterexample: with ids `[A(disabled), B, C]` and no active
item, `ArrowDown` selects `A` — the disabled entry — not `B` as the
claim states. -/
theorem C2_counterexample :
    (handleKeyDown c2state Key.arrowDown).1.activeItem = some "A" ∧
    (handleKeyDown c2state Key.arrowDown).1.activeItem ≠ some "B" := by
  constructor
  · rfl
  · decide

/-- C2 amended: keyboard navigation traverses every registered id: the
registry records no disabled flag, so from no active item `ArrowDown`
selects the first registered id whatever its `disabled` prop was; the
`disabled` prop only disables the pointer paths (click-select and
hover-highlight). -/
theorem C2_navigation_ignores_disabled (s : CState) (ho : s.isOpen = true)
    (hne : s.itemsMap ≠ []) (hna : s.activeItem = none) :
    (handleKeyDown s Key.arrowDown).1.activeItem = s.itemsMap.head? ∧
    (∀ v h2, handleSelect s v true h2 = (s, [])) ∧
    (∀ v, handleMouseEnter s v true = s) := by
  refine ⟨?_, ?_, ?_⟩
  · rw [hkd_down s ho hne, moveNext_not_truthy s (by rw [hna]; rfl)]
  · intro v h2
    simp [handleSelect]
  · intro v
    simp [handleMouseEnter]

/-- C2 witness: the amended navigation behavior evaluated on the
`[A, B, C]` registry. -/
theorem C2_witness :
    c2state.isOpen = true ∧ c2state.itemsMap ≠ [] ∧ c2state.activeItem = none ∧
    (handleKeyDown c2state Key.arrowDown).1.activeItem = c2state.itemsMap.head? := by
  refine ⟨rfl, by decide, rfl, ?_⟩
  exact (C2_navigation_ignores_disabled c2state rfl (by decide) rfl).1

/-- Open state with item `A` registered but a dangling active id `Z`
that resolves to no registry entry. -/
def c3state : CState :=
  { value := "", search := "q", isOpen := true, activeItem := some "Z", itemsMap := ["A"] }

/-- C3 counterexample: although `Z` resolves to no (let alone a
non-disabled) registry entry, `Enter` still commits it: `value` becomes
`Z`, `onChange` fires, the widget closes and the search text is
cleared — not the claimed no-op. -/
theorem C3_counterexample :
    c3state.activeItem = some "Z" ∧ "Z" ∉ c3state.itemsMap ∧
    handleKeyDown c3state Key.enter
      = ({ c3state with value := "Z", isOpen := false, search := "" },
         [Event.onChange "Z", Event.onOpenChange false]) := by
  refine ⟨rfl, by decide, rfl⟩

/-- C3 amended: the `Enter` commit path checks only truthiness of
`activeItem`, never registration or the `disabled` prop: with a
nonempty registry it commits the active id, fires `onChange`, closes
(firing `onOpenChange false`) and clears the search text; it is a no-op
when `activeItem` is `null`.  Only the pointer path checks `disabled`:
a click on a disabled item is a no-op, and on an enabled item it
commits analogously. -/
theorem C3_commit_behavior (s : CState) (ho : s.isOpen = true) (hne : s.itemsMap ≠ []) :
    (s.activeItem = none → handleKeyDown s Key.enter = (s, [])) ∧
    (∀ a, s.activeItem = some a → a ≠ "" →
        handleKeyDown s Key.enter
          = ({ s with value := a, isOpen := false, search := "" },
             [Event.onChange a, Event.onOpenChange false])) ∧
    (∀ v h2, handleSelect s v true h2 = (s, [])) ∧
    (∀ v, handleSelect s v false false
        = ({ s with value := v, isOpen := false, search := "" },
           [Event.onChange v, Event.onOpenChange false, Event.onSearchChange ""])) := by
  refine ⟨?_, ?_, ?_, ?_⟩
  · intro hna
    rw [hkd_enter s ho hne]
    simp [commitActive, hna]
  · intro a ha h0
    rw [hkd_enter s ho hne]
    simp [commitActive, ha, h0, setValue, setOpen]
  · intro v h2
    simp [handleSelect]
  · intro v
    simp [handleSelect, setValue, setOpen, handleSearchChange]

/-- Open state with an enabled active item `B`, used as the C3 and C10
witness input. -/
def c3wit : CState :=
  { value := "", search := "q", isOpen := true, activeItem := some "B", itemsMap := ["A", "B"] }

/-- C3 witness: the amended commit behavior evaluated with active item
`B` registered. -/
theorem C3_witness :
    c3wit.isOpen = true ∧ c3wit.itemsMap ≠ [] ∧ c3wit.activeItem = some "B" ∧
    ("B" : String) ≠ "" ∧
    handleKeyDown c3wit Key.enter
      = ({ c3wit with value := "B", isOpen := false, search := "" },
         [Event.onChange "B", Event.onOpenChange false]) := by
  refine ⟨rfl, by decide, rfl, by decide, ?_⟩
  exact (C3_commit_behavior c3wit rfl (by decide)).2.1 "B" rfl (by decide)

/-- C4 amended: in part_000 the controller's `setSearch`
(`handleSearchChange`) only updates the search text and fires
`onSearchChange`, leaving `isOpen` and `activeItem` untouched; the
open-forcing and active-clearing of the claim happen only in the
`Combobox.tsx` variant's input change handler. -/
theorem C4_search_change_variants :
    (∀ s t, (handleSearchChange s t).1.search = t ∧
        (handleSearchChange s t).1.isOpen = s.isOpen ∧
        (handleSearchChange s t).1.activeItem = s.activeItem ∧
        (handleSearchChange s t).1.value = s.value ∧
        (handleSearchChange s t).2 = [Event.onSearchChange t]) ∧
    (∀ s v, (tsxHandleChange s v).1.searchValue = v ∧
        (tsxHandleChange s v).1.openFlag = true ∧
        (tsxHandleChange s v).1.activeIndex = -1 ∧
        (tsxHandleChange s v).2 = [Event.onSearchChange v]) :=
  ⟨fun _ _ => ⟨rfl, rfl, rfl, rfl, rfl⟩, fun _ _ => ⟨rfl, rfl, rfl, rfl⟩⟩

/-- A closed prior state with an active item, refuting C4 on the
part_000 controller. -/
def c4state : CState :=
  { value := "", search := "", isOpen := false, activeItem := some "a", itemsMap := ["a"] }

/-- C4 counterexample: part_000's `setSearch("x")` leaves the widget
closed and the active item set — it neither forces `isOpen = true` nor
clears `activeItemId`. -/
theorem C4_counterexample :
    (handleSearchChange c4state "x").1.isOpen = false ∧
    (handleSearchChange c4state "x").1.activeItem = some "a" :=
  ⟨rfl, rfl⟩

/-- C5: while open, arrow navigation is a no-op on an empty registry;
otherwise it is circular over the registered key order: a truthy
registered active id moves to its successor/predecessor position with
wraparound, from the last id `next` yields the first, from the first id
`previous` yields the last, and with no active item `next` selects the
first id and `previous` the last. -/
theorem C5_moveActive (s : CState) (ho : s.isOpen = true) (hnd : s.itemsMap.Nodup) :
    (s.itemsMap = [] →
        handleKeyDown s Key.arrowDown = (s, []) ∧ handleKeyDown s Key.arrowUp = (s, [])) ∧
    (s.itemsMap ≠ [] → s.activeItem = none →
        (handleKeyDown s Key.arrowDown).1.activeItem = s.itemsMap.head? ∧
        (handleKeyDown s Key.arrowUp).1.activeItem = s.itemsMap.getLast?) ∧
    (∀ a, s.activeItem = some a → a ≠ "" → a ∈ s.itemsMap →
        (handleKeyDown s Key.arrowDown).1.activeItem
          = s.itemsMap.get? ((s.itemsMap.indexOf a + 1) % s.itemsMap.length) ∧
        (handleKeyDown s Key.arrowUp).1.activeItem
          = s.itemsMap.get?
              ((s.itemsMap.indexOf a + s.itemsMap.length - 1) % s.itemsMap.length)) ∧
    (∀ a, s.activeItem = some a → s.itemsMap.getLast? = some a →
        (handleKeyDown s Key.arrowDown).1.activeItem = s.itemsMap.head?) ∧
    (∀ a, s.activeItem = some a → s.itemsMap.head? = some a →
        (handleKeyDown s Key.arrowUp).1.activeItem = s.itemsMap.getLast?) := by
  refine ⟨?_, ?_, ?_, ?_, ?_⟩
  · intro h
    constructor <;> simp [handleKeyDown, ho, h]
  · intro hne hna
    constructor
    · rw [hkd_down s ho hne, moveNext_not_truthy s (by rw [hna]; rfl)]
    · rw [hkd_up s ho hne, movePrev_not_truthy s (by rw [hna]; rfl) hne]
  · intro a ha h0 hm
    have hne : s.itemsMap ≠ [] := List.ne_nil_of_mem hm
    constructor
    · rw [hkd_down s ho hne, moveNext_of_mem s a ha h0 hm]
    · rw [hkd_up s ho hne, movePrev_of_mem s a ha h0 hm]
  · intro a ha hl
    have hm : a ∈ s.itemsMap := List.mem_of_mem_getLast? hl
    have hne : s.itemsMap ≠ [] := List.ne_nil_of_mem hm
    have hpos : 0 < s.itemsMap.length := List.length_pos.mpr hne
    by_cases h0 : a = ""
    · subst h0
      rw [hkd_down s ho hne, moveNext_not_truthy s (by rw [ha]; rfl)]
    · rw [hkd_down s ho hne, moveNext_of_mem s a ha h0 hm]
      have hidx : (s.itemsMap.indexOf a + 1) % s.itemsMap.length = 0 := by
        rw [indexOf_of_getLast s.itemsMap a hnd hl, Nat.sub_add_cancel hpos, Nat.mod_self]
      rw [hidx, List.get?_zero]
  · intro a ha hh
    have hm : a ∈ s.itemsMap := List.mem_of_mem_head? hh
    have hne : s.itemsMap ≠ [] := List.ne_nil_of_mem hm
    have hpos : 0 < s.itemsMap.length := List.length_pos.mpr hne
    by_cases h0 : a = ""
    · subst h0
      rw [hkd_up s ho hne, movePrev_not_truthy s (by rw [ha]; rfl) hne]
    · rw [hkd_up s ho hne, movePrev_of_mem s a ha h0 hm]
      have hidx : (s.itemsMap.indexOf a + s.itemsMap.length - 1) % s.itemsMap.length
          = s.itemsMap.length - 1 := by
        rw [indexOf_of_head s.itemsMap a hh, Nat.zero_add, Nat.mod_eq_of_lt (by omega)]
      rw [hidx, List.get?_eq_getElem?, ← List.getLast?_eq_getElem?]

/-- Open state with `c` active at the end of the registry, used as the
C5 witness input. -/
def c5state : CState :=
  { value := "", search := "", isOpen := true, activeItem := some "c",
    itemsMap := ["a", "b", "c"] }

/-- C5 witness: on registry `[a, b, c]` with active `c`, `ArrowDown`
wraps to `a` and `ArrowUp` steps back to `b`. -/
theorem C5_witness :
    c5state.isOpen = true ∧ c5state.itemsMap.Nodup ∧ c5state.activeItem = some "c" ∧
    c5state.itemsMap.getLast? = some "c" ∧ ("c" : String) ∈ c5state.itemsMap ∧
    (handleKeyDown c5state Key.arrowDown).1.activeItem = some "a" ∧
    (handleKeyDown c5state Key.arrowUp).1.activeItem = some "b" := by
  refine ⟨rfl, by decide, rfl, by decide, by decide, ?_, ?_⟩
  · exact (C5_moveActive c5state rfl (by decide)).2.2.2.1 "c" rfl (by decide)
  · exact ((C5_moveActive c5state rfl (by decide)).2.2.1 "c" rfl (by decide) (by decide)).2

/-- Open state whose registry contains the empty-string id right after
the active item `A`; JS treats `""` as falsy. -/
def c6state : CState :=
  { value := "", search := "", isOpen := true, activeItem := some "A", itemsMap := ["A", ""] }

/-- C6 counterexample: from active `A` in the unchanged registry
`[A, ""]`, `ArrowDown` moves onto the empty-string id, which the
`ArrowUp` handler then treats as "no active item" (JS falsiness), so
the round trip ends on `""` instead of restoring `A`. -/
theorem C6_counterexample :
    c6state.activeItem = some "A" ∧ "A" ∈ c6state.itemsMap ∧
    (handleKeyDown c6state Key.arrowDown).1.itemsMap = c6state.itemsMap ∧
    (handleKeyDown (handleKeyDown c6state Key.arrowDown).1 Key.arrowUp).1.activeItem
      = some "" ∧
    (handleKeyDown (handleKeyDown c6state Key.arrowDown).1 Key.arrowUp).1.activeItem
      ≠ c6state.activeItem := by
  refine ⟨rfl, by decide, rfl, rfl, by decide⟩

/-- C6 amended: `moveActive(next)` then `moveActive(previous)` restores
the original active id whenever the active id is a registered non-empty
id and its circular successor id is also non-empty (the registry is
untouched by navigation, so the navigable set is unchanged between the
two calls); from no active item the two single moves select the first
and last registered id respectively. -/
theorem C6_roundtrip (s : CState) (ho : s.isOpen = true) (hnd : s.itemsMap.Nodup) :
    (∀ a, s.activeItem = some a → a ≠ "" → a ∈ s.itemsMap →
        s.itemsMap.get? ((s.itemsMap.indexOf a + 1) % s.itemsMap.length) ≠ some "" →
        (handleKeyDown (handleKeyDown s Key.arrowDown).1 Key.arrowUp).1.activeItem
          = some a) ∧
    (s.activeItem = none → s.itemsMap ≠ [] →
        (handleKeyDown s Key.arrowDown).1.activeItem = s.itemsMap.head? ∧
        (handleKeyDown s Key.arrowUp).1.activeItem = s.itemsMap.getLast?) := by
  constructor
  · intro a ha h0 hm hsucc
    have hne : s.itemsMap ≠ [] := List.ne_nil_of_mem hm
    have hpos : 0 < s.itemsMap.length := List.length_pos.mpr hne
    have hi : s.itemsMap.indexOf a < s.itemsMap.length := List.indexOf_lt_length.mpr hm
    have hmlt : (s.itemsMap.indexOf a + 1) % s.itemsMap.length < s.itemsMap.length :=
      Nat.mod_lt _ hpos
    have hb : s.itemsMap.get? ((s.itemsMap.indexOf a + 1) % s.itemsMap.length)
        = some (s.itemsMap[(s.itemsMap.indexOf a + 1) % s.itemsMap.length]) := by
      rw [List.get?_eq_getElem?]
      exact (List.getElem?_eq_some_getElem_iff _ _ hmlt).mpr trivial
    obtain ⟨b, hb2⟩ : ∃ b, s.itemsMap.get? ((s.itemsMap.indexOf a + 1) % s.itemsMap.length)
        = some b := ⟨_, hb⟩
    have hbe : s.itemsMap[(s.itemsMap.indexOf a + 1) % s.itemsMap.length] = b := by
      rw [hb] at hb2
      exact Option.some.inj hb2
    have hbne : b ≠ "" := by
      intro e
      exact hsucc (by rw [hb2, e])
    have hbm : b ∈ s.itemsMap := List.get?_mem hb2
    have hib : s.itemsMap.indexOf b = (s.itemsMap.indexOf a + 1) % s.itemsMap.length := by
      rw [← hbe]
      exact List.indexOf_getElem hnd _ hmlt
    rw [hkd_down s ho hne, moveNext_of_mem s a ha h0 hm, hb2]
    dsimp only
    rw [hkd_up { s with activeItem := some b } ho hne,
      movePrev_of_mem { s with activeItem := some b } b rfl hbne hbm]
    dsimp only
    rw [hib, wrap_roundtrip _ _ hi]
    exact List.indexOf_get? hm
  · intro hna hne
    constructor
    · rw [hkd_down s ho hne, moveNext_not_truthy s (by rw [hna]; rfl)]
    · rw [hkd_up s ho hne, movePrev_not_truthy s (by rw [hna]; rfl) hne]

/-- Open state with `a` active at the head of the duplicate-free
registry `[a, b, c]`, used as the C6 witness input. -/
def c6wit : CState :=
  { value := "", search := "", isOpen := true, activeItem := some "a",
    itemsMap := ["a", "b", "c"] }

/-- C6 witness: the round trip evaluated from active `a` on registry
`[a, b, c]`. -/
theorem C6_witness :
    c6wit.isOpen = true ∧ c6wit.itemsMap.Nodup ∧ c6wit.activeItem = some "a" ∧
    (handleKeyDown (handleKeyDown c6wit Key.arrowDown).1 Key.arrowUp).1.activeItem
      = some "a" := by
  refine ⟨rfl, by decide, rfl, ?_⟩
  exact (C6_roundtrip c6wit rfl (by decide)).1 "a" rfl (by decide) (by decide) (by decide)

/-- Open state with an empty registry (e.g. every item filtered out),
used to exhibit the C7 divergence. -/
def c7state : CState :=
  { value := "v", search := "x", isOpen := true, activeItem := none, itemsMap := [] }

/-- Open state with one registered item, on which `Escape` does
close. -/
def c7state2 : CState :=
  { value := "v", search := "x", isOpen := true, activeItem := none, itemsMap := ["A"] }

/-- C7: with a nonempty registry, `Escape` while open closes the
widget, fires `onOpenChange false` and leaves `search` and `value`
untouched — but with an empty registry the early
`if (!items.length) return;` swallows `Escape`: the widget stays open
and no collaborator fires, contradicting the README
("Escape: Close the dropdown"). -/
theorem C7_escape_empty_registry_bug :
    handleKeyDown c7state Key.escape = (c7state, []) ∧
    c7state.isOpen = true ∧
    handleKeyDown c7state2 Key.escape
      = ({ c7state2 with isOpen := false }, [Event.onOpenChange false]) ∧
    (handleKeyDown c7state2 Key.escape).1.search = c7state2.search ∧
    (handleKeyDown c7state2 Key.escape).1.value = c7state2.value :=
  ⟨rfl, rfl, rfl, rfl, rfl⟩

/-- C8: while closed, `ArrowDown` and `Enter` only set `isOpen := true`
(firing `onOpenChange true`; `value`, `search`, `activeItem` and the
registry untouched, no navigation or commit), and every other key does
nothing at all. -/
theorem C8_closed_dispatch (s : CState) (hc : s.isOpen = false) :
    handleKeyDown s Key.arrowDown
      = ({ s with isOpen := true }, [Event.onOpenChange true]) ∧
    handleKeyDown s Key.enter
      = ({ s with isOpen := true }, [Event.onOpenChange true]) ∧
    handleKeyDown s Key.arrowUp = (s, []) ∧
    handleKeyDown s Key.escape = (s, []) ∧
    handleKeyDown s Key.other = (s, []) := by
  rw [handleKeyDown, handleKeyDown, handleKeyDown, handleKeyDown, handleKeyDown]
  simp [hc, keyDownClosed, setOpen]

/-- A closed state with nontrivial fields, used as the C8 witness
input. -/
def c8state : CState :=
  { value := "v", search := "s", isOpen := false, activeItem := some "x",
    itemsMap := ["x", "y"] }

/-- C8 witness: the closed-state dispatch evaluated on a concrete
state. -/
theorem C8_witness :
    c8state.isOpen = false ∧
    handleKeyDown c8state Key.arrowDown
      = ({ c8state with isOpen := true }, [Event.onOpenChange true]) ∧
    handleKeyDown c8state Key.escape = (c8state, []) := by
  refine ⟨rfl, ?_, ?_⟩
  · exact (C8_closed_dispatch c8state rfl).1
  · exact (C8_closed_dispatch c8state rfl).2.2.2.1

/-- C9: registry mutation is idempotent in both variants:
re-registering a present id leaves the key list unchanged, and
unregistering an absent id is a complete no-op. -/
theorem C9_registry_idempotent :
    (∀ s id, id ∈ s.itemsMap → (registerItem s id).itemsMap = s.itemsMap) ∧
    (∀ s id, id ∉ s.itemsMap → unregisterItem s id = s) ∧
    (∀ (l : List Nat) el, el ∈ l → tsxRegisterItem l el = l) ∧
    (∀ (l : List Nat) el, el ∉ l → tsxUnregisterItem l el = l) := by
  refine ⟨?_, ?_, ?_, ?_⟩
  · intro s id h
    simp [registerItem, h]
  · intro s id h
    simp [unregisterItem, List.erase_of_not_mem h]
  · intro l el h
    simp [tsxRegisterItem, h]
  · intro l el h
    simp [tsxUnregisterItem, List.erase_of_not_mem h]

/-- Registry with two mounted ids, used as the C9 witness input. -/
def c9state : CState :=
  { value := "", search := "", isOpen := true, activeItem := none, itemsMap := ["a", "b"] }

/-- C9 witness: idempotence evaluated on concrete registries. -/
theorem C9_witness :
    ("a" ∈ c9state.itemsMap ∧ (registerItem c9state "a").itemsMap = c9state.itemsMap) ∧
    ("c" ∉ c9state.itemsMap ∧ unregisterItem c9state "c" = c9state) ∧
    ((1 : Nat) ∈ [1, 2] ∧ tsxRegisterItem [1, 2] 1 = [1, 2]) ∧
    ((3 : Nat) ∉ [1, 2] ∧ tsxUnregisterItem [1, 2] 3 = [1, 2]) := by
  refine ⟨⟨by decide, C9_registry_idempotent.1 c9state "a" (by decide)⟩,
    ⟨by decide, C9_registry_idempotent.2.1 c9state "c" (by decide)⟩,
    ⟨by decide, C9_registry_idempotent.2.2.1 [1, 2] 1 (by decide)⟩,
    ⟨by decide, C9_registry_idempotent.2.2.2 [1, 2] 3 (by decide)⟩⟩

/-- C10: both commit paths clear the search text, but only the pointer
path notifies the collaborator: the keyboard `Enter` trace is exactly
`[onChange, onOpenChange false]` with no `onSearchChange`, while the
click path ends in `onSearchChange ""` because it clears through the
context setter (`handleSearchChange`). -/
theorem C10_commit_paths (s : CState) (ho : s.isOpen = true) (hne : s.itemsMap ≠ [])
    (a : String) (ha : s.activeItem = some a) (h0 : a ≠ "") :
    (handleKeyDown s Key.enter).1.search = "" ∧
    (handleKeyDown s Key.enter).2 = [Event.onChange a, Event.onOpenChange false] ∧
    Event.onSearchChange "" ∉ (handleKeyDown s Key.enter).2 ∧
    (∀ v, (handleSelect s v false false).1.search = "" ∧
        (handleSelect s v false false).2
          = [Event.onChange v, Event.onOpenChange false, Event.onSearchChange ""] ∧
        Event.onSearchChange "" ∈ (handleSelect s v false false).2) := by
  rw [hkd_enter s ho hne]
  refine ⟨?_, ?_, ?_, ?_⟩
  · simp [commitActive, ha, h0, setValue, setOpen]
  · simp [commitActive, ha, h0, setValue, setOpen]
  · simp [commitActive, ha, h0, setValue, setOpen]
  · intro v
    refine ⟨?_, ?_, ?_⟩ <;> simp [handleSelect, setValue, setOpen, handleSearchChange]

/-- C10 witness: the two commit traces evaluated with active item `B`
registered. -/
theorem C10_witness :
    c3wit.isOpen = true ∧ c3wit.itemsMap ≠ [] ∧ c3wit.activeItem = some "B" ∧
    ("B" : String) ≠ "" ∧
    (handleKeyDown c3wit Key.enter).2 = [Event.onChange "B", Event.onOpenChange false] ∧
    (handleSelect c3wit "A" false false).2
      = [Event.onChange "A", Event.onOpenChange false, Event.onSearchChange ""] := by
  refine ⟨rfl, by decide, rfl, by decide, ?_, ?_⟩
  · exact (C10_commit_paths c3wit rfl (by decide) "B" rfl (by decide)).2.1
  · exact ((C10_commit_paths c3wit rfl (by decide) "B" rfl (by decide)).2.2.2 "A").2.1

end Combobox
